import Mathlib

/-!
Shallow embedding of the tutoring-platform backend models
(Payment, Session, Attendance) and of the global error handler,
together with theorems checking the specification claims.

Times are modelled as integer milliseconds since the epoch
(the value of a JavaScript Date); nullable columns are Option;
DECIMAL amounts are modelled as integers since only order and
equality of amounts matter to the properties below.
-/

/-- Milliseconds in a day, the constant 1000*60*60*24 from the source. -/
def msPerDay : Int := 1000 * 60 * 60 * 24

/-- Statuses of the Payment ENUM column. -/
inductive PaymentStatus
  | pending
  | processing
  | completed
  | failed
  | refunded
  | cancelled
deriving DecidableEq, Repr

/-- Values of the paymentMethod ENUM column. -/
inductive PaymentMethod
  | credit_card
  | debit_card
  | bank_transfer
  | paypal
  | stripe
  | cash
  | waiver
  | dev_mode
deriving DecidableEq, Repr

/-- A Payment row: the columns touched by the instance methods and
the beforeCreate hook of backend/models/Payment.js. -/
structure Payment where
  amount : Int
  currency : String
  paymentMethod : PaymentMethod
  status : PaymentStatus
  transactionId : Option String
  gatewayResponse : Option String
  dueDate : Option Int
  paidAt : Option Int
  refundedAt : Option Int
  refundAmount : Option Int
  refundReason : Option String
  invoiceNumber : Option String
  environment : String
deriving DecidableEq, Repr

/-- Payment.prototype.isCompleted: status === completed. -/
def Payment.isCompleted (p : Payment) : Bool :=
  p.status = PaymentStatus.completed

/-- Payment.prototype.isOverdue: false when dueDate is null or the
payment is completed, else now > dueDate (strict). -/
def Payment.isOverdue (p : Payment) (now : Int) : Bool :=
  match p.dueDate with
  | none => false
  | some due => if p.isCompleted then false else due < now

/-- Payment.prototype.getDaysOverdue: 0 unless overdue, else
Math.ceil((now - due) / (1000*60*60*24)), the ceiling written as the
negated floor division so that it stays computable over Int; the
lemma ceilDiv_eq_ceil below identifies it with the real ceiling. -/
def Payment.getDaysOverdue (p : Payment) (now : Int) : Int :=
  if p.isOverdue now then
    match p.dueDate with
    | some due => -(-(now - due) / msPerDay)
    | none => 0
  else 0

/-- JavaScript truthiness of a nullable string: null and the empty
string are falsy. -/
def jsTruthyStr : Option String → Bool
  | none => false
  | some s => !s.isEmpty

/-- Payment.prototype.markAsCompleted: sets status to completed,
stamps paidAt with the current time, and records transactionId and
gatewayResponse when they are truthy arguments. -/
def Payment.markAsCompleted (p : Payment) (now : Int)
    (transactionId gatewayResponse : Option String) : Payment :=
  let p1 := { p with status := PaymentStatus.completed, paidAt := some now }
  let p2 := if jsTruthyStr transactionId then
    { p1 with transactionId := transactionId } else p1
  if gatewayResponse.isSome then
    { p2 with gatewayResponse := gatewayResponse } else p2

/-- Payment.prototype.markAsFailed. -/
def Payment.markAsFailed (p : Payment) (gatewayResponse : Option String) : Payment :=
  let p1 := { p with status := PaymentStatus.failed }
  if gatewayResponse.isSome then
    { p1 with gatewayResponse := gatewayResponse } else p1

/-- Payment.prototype.refund: sets status to refunded, stores the
given amount and reason, stamps refundedAt; no validation of the
amount against the original amount. -/
def Payment.refund (p : Payment) (amount : Int) (reason : String) (now : Int) : Payment :=
  { p with status := PaymentStatus.refunded,
           refundAmount := some amount,
           refundReason := some reason,
           refundedAt := some now }

/-- Statuses of the Session ENUM column. -/
inductive SessionStatus
  | scheduled
  | ongoing
  | completed
  | cancelled
  | rescheduled
deriving DecidableEq, Repr

/-- A Session row: the columns used by isFull and canJoin in
backend/models/Session.js. -/
structure Session where
  status : SessionStatus
  maxStudents : Int
  currentStudents : Int
deriving DecidableEq, Repr

/-- Session.prototype.isFull: currentStudents >= maxStudents. -/
def Session.isFull (s : Session) : Bool :=
  s.maxStudents ≤ s.currentStudents

/-- Session.prototype.canJoin: status === scheduled and not full. -/
def Session.canJoin (s : Session) : Bool :=
  s.status = SessionStatus.scheduled && !s.isFull

/-- Statuses of the Attendance ENUM column. -/
inductive AttendanceStatus
  | pending
  | present
  | absent
  | late
  | excused
deriving DecidableEq, Repr

/-- An Attendance row: the columns touched by markPresent, markAbsent
and markLate. -/
structure Attendance where
  status : AttendanceStatus
  checkInTime : Option Int
  checkOutTime : Option Int
  reason : Option String
  markedBy : Option String
  markedAt : Option Int
deriving DecidableEq, Repr

/-- Attendance.prototype.markPresent. -/
def Attendance.markPresent (a : Attendance) (markedBy : String) (now : Int) : Attendance :=
  { a with status := AttendanceStatus.present,
           checkInTime := some now,
           markedBy := some markedBy,
           markedAt := some now }

/-- Attendance.prototype.markAbsent (reason defaults to null). -/
def Attendance.markAbsent (a : Attendance) (markedBy : String) (reason : Option String)
    (now : Int) : Attendance :=
  { a with status := AttendanceStatus.absent,
           reason := reason,
           markedBy := some markedBy,
           markedAt := some now }

/-- Attendance.prototype.markLate. -/
def Attendance.markLate (a : Attendance) (markedBy : String) (now : Int) : Attendance :=
  { a with status := AttendanceStatus.late,
           checkInTime := some now,
           markedBy := some markedBy,
           markedAt := some now }

/-- String(n).padStart(width, c) on a natural number. -/
def padStartNat (n : Nat) (width : Nat) (c : Char) : String :=
  let s := toString n
  String.mk (List.replicate (width - s.length) c) ++ s

/-- Payment.count with createdAt between lo and hi (Op.between is
inclusive on both ends); the table is modelled as the list of
createdAt timestamps of the existing payments. -/
def countBetween (table : List Int) (lo hi : Int) : Nat :=
  (table.filter (fun t => lo ≤ t && t ≤ hi)).length

/-- The invoice number the beforeCreate hook generates: the count
query runs from new Date(year, month, 1), the start of the month, to
new Date(year, month + 1, 0), which is midnight at the START of the
LAST day of the month: monthStart + (daysInMonth - 1) days.
The number is INV-{year}{month+1 padded to 2}-{count+1 padded to 4}. -/
def genInvoiceNumber (year monthIdx : Nat) (table : List Int)
    (monthStart : Int) (daysInMonth : Nat) : String :=
  let lastDayMidnight := monthStart + ((daysInMonth : Int) - 1) * msPerDay
  let count := countBetween table monthStart lastDayMidnight
  "INV-" ++ toString year ++ padStartNat (monthIdx + 1) 2 '0'
    ++ "-" ++ padStartNat (count + 1) 4 '0'

/-- Number of payments created in the current calendar month, as the
spec words it: createdAt in the half-open interval from the start of
the month to the start of the next month. -/
def countInCalendarMonth (table : List Int) (monthStart : Int) (daysInMonth : Nat) : Nat :=
  (table.filter (fun t => monthStart ≤ t && t < monthStart + (daysInMonth : Int) * msPerDay)).length

/-- The beforeCreate hook of the Payment model: in the dev
environment force the payment to completed, free, dev_mode; then, if
invoiceNumber is falsy (null or empty), generate one from the count
of payments in the month window. envFlag models
process.env.ENVIRONMENT; the month context (year, zero-based month
index, month start, number of days in the month) and the table of
existing createdAt timestamps model the clock and the database. -/
def beforeCreate (envFlag : String) (now : Int) (year monthIdx : Nat)
    (monthStart : Int) (daysInMonth : Nat) (table : List Int) (p : Payment) : Payment :=
  let p1 := if envFlag = "dev" then
    { p with status := PaymentStatus.completed,
             paidAt := some now,
             paymentMethod := PaymentMethod.dev_mode,
             amount := 0,
             environment := "dev" } else p
  let inv := genInvoiceNumber year monthIdx table monthStart daysInMonth
  if jsTruthyStr p1.invoiceNumber then p1
  else { p1 with invoiceNumber := some inv }

/-- A concrete pending payment used in concrete checks below. -/
def samplePayment : Payment :=
  { amount := 10
    currency := "USD"
    paymentMethod := PaymentMethod.dev_mode
    status := PaymentStatus.pending
    transactionId := none
    gatewayResponse := none
    dueDate := some 0
    paidAt := none
    refundedAt := none
    refundAmount := none
    refundReason := none
    invoiceNumber := none
    environment := "dev" }

/-- One item of the errors array of a Sequelize error (path, message,
value), which the handler maps to field, message, value. -/
structure FieldItem where
  path : String
  message : String
  value : String
deriving DecidableEq, Repr

/-- The incoming error object of the global error handler: its name,
message, optional code (multer), optional status (rate limiter),
optional statusCode carried by the error itself, and the optional
errors array of a Sequelize error. -/
structure JsError where
  name : String
  message : String
  code : Option String
  status : Option Int
  statusCode : Option Int
  errors : Option (List FieldItem)
deriving DecidableEq, Repr

/-- The local error variable rebuilt by the chain of if statements. -/
structure ErrState where
  statusCode : Option Int
  message : String
  errors : Option (List FieldItem)
deriving DecidableEq, Repr

/-- The JSON body sent by res.status(statusCode).json along with the
HTTP status used. -/
structure ErrResponse where
  status : Int
  success : Bool
  message : String
  errors : Option (List FieldItem)
deriving DecidableEq, Repr

/-- Object.values(err.errors).map(v => v.message).join(", "). -/
def joinMessages (l : List FieldItem) : String :=
  String.intercalate ", " (l.map (fun v => v.message))

/-- The sequence of if statements of errorHandler that rebuild the
error variable, in source order; each test is on the incoming err. -/
def applyBranches (err : JsError) : ErrState :=
  let e : ErrState := { statusCode := err.statusCode, message := err.message,
                        errors := err.errors }
  let e := if err.name = "SequelizeValidationError" then
    { statusCode := some 400,
      message := "Validation Error: " ++ joinMessages (err.errors.getD []),
      errors := some (err.errors.getD []) } else e
  let e := if err.name = "SequelizeUniqueConstraintError" then
    { statusCode := some 409,
      message := "Duplicate Error: " ++ joinMessages (err.errors.getD []),
      errors := some (err.errors.getD []) } else e
  let e := if err.name = "SequelizeForeignKeyConstraintError" then
    { statusCode := some 400,
      message := "Referenced record does not exist",
      errors := none } else e
  let e := if err.name = "JsonWebTokenError" then
    { statusCode := some 401, message := "Invalid token", errors := none } else e
  let e := if err.name = "TokenExpiredError" then
    { statusCode := some 401, message := "Token expired", errors := none } else e
  let e := if err.code = some "LIMIT_FILE_SIZE" then
    { statusCode := some 400, message := "File size too large", errors := none } else e
  let e := if err.code = some "LIMIT_UNEXPECTED_FILE" then
    { statusCode := some 400, message := "Unexpected file field", errors := none } else e
  let e := if err.status = some 429 then
    { statusCode := some 429,
      message := "Too many requests, please try again later", errors := none } else e
  let e := if err.name = "CastError" then
    { statusCode := some 400, message := "Invalid ID format", errors := none } else e
  e

/-- error.statusCode || 500 (0 is falsy in JavaScript). -/
def resolveStatus : Option Int → Int
  | none => 500
  | some n => if n = 0 then 500 else n

/-- error.message || the default Internal Server Error text (the
empty string is falsy). -/
def resolveMessage (m : String) : String :=
  if m = "" then "Internal Server Error" else m

/-- The global error handler middleware: rebuild the error through
the branch chain, then answer with success false, the resolved
message, and the errors array when one was kept. -/
def errorHandler (err : JsError) : ErrResponse :=
  let e := applyBranches err
  { status := resolveStatus e.statusCode
    success := false
    message := resolveMessage e.message
    errors := e.errors }

/-- A bare error carrying only a name and message, as a generic
thrown Error does. -/
def plainError (n m : String) : JsError :=
  { name := n, message := m, code := none, status := none,
    statusCode := none, errors := none }

/-- A generic error that carries its own statusCode 503. -/
def statusCodeError : JsError :=
  { name := "Error", message := "boom", code := none, status := none,
    statusCode := some 503, errors := none }

/-- Fold a list of markAsCompleted calls (time, transactionId,
gatewayResponse) over a payment, in order. -/
def applyCalls (p : Payment) (calls : List (Int × Option String × Option String)) : Payment :=
  calls.foldl (fun q c => q.markAsCompleted c.1 c.2.1 c.2.2) p

/-- The stored refund amount never exceeds the payment amount
(vacuously true when no refund amount is stored). -/
def refundWithinAmount (p : Payment) : Bool :=
  match p.refundAmount with
  | none => true
  | some ra => ra ≤ p.amount

/- ### Helper lemmas -/

/-- The ceiling of an integer divided by a natural number equals the
negated floor division of the negation. -/
theorem ceil_div_eq_neg_ediv (a : ℤ) (b : ℕ) :
    ⌈((a : ℚ) / (b : ℚ))⌉ = -((-a) / (b : ℤ)) := by
  have h := Rat.floor_intCast_div_natCast (-a) b
  rw [Int.cast_neg, neg_div, Int.floor_neg] at h
  rw [← h]
  ring

/-- Specialisation to the milliseconds-per-day constant. -/
theorem ceilDiv_eq_ceil (a : Int) :
    -((-a) / msPerDay) = ⌈((a : ℚ) / ((msPerDay : Int) : ℚ))⌉ := by
  have h := ceil_div_eq_neg_ediv a 86400000
  have h1 : ((86400000 : ℕ) : ℤ) = msPerDay := by norm_num [msPerDay]
  have h2 : ((86400000 : ℕ) : ℚ) = ((msPerDay : Int) : ℚ) := by norm_num [msPerDay]
  rw [h1, h2] at h
  exact h.symm

/-- A markAsCompleted call always ends with completed status and the
call time as paidAt, whatever the optional arguments. -/
theorem markAsCompleted_status_paidAt (p : Payment) (t : Int) (a b : Option String) :
    (p.markAsCompleted t a b).status = PaymentStatus.completed ∧
    (p.markAsCompleted t a b).paidAt = some t := by
  simp only [Payment.markAsCompleted]
  split <;> split <;> simp

/-- resolveMessage never returns the empty string. -/
theorem resolveMessage_ne_empty (m : String) : resolveMessage m ≠ "" := by
  unfold resolveMessage
  split
  · decide
  · assumption

/- ### Claim theorems -/

/-- C1: for a payment whose dueDate is set, isOverdue is true exactly
when the status is not completed and the current time is strictly
after the due date. -/
theorem isOverdue_iff_not_completed_and_past (p : Payment) (now d : Int)
    (h : p.dueDate = some d) :
    p.isOverdue now = true ↔ (p.status ≠ PaymentStatus.completed ∧ d < now) := by
  by_cases hc : p.status = PaymentStatus.completed <;>
    simp [Payment.isOverdue, h, Payment.isCompleted, hc]

/-- C1 witness: a pending payment due at time 0 is overdue at time 5. -/
theorem isOverdue_iff_witness :
    samplePayment.isOverdue 5 = true ↔
      (samplePayment.status ≠ PaymentStatus.completed ∧ (0 : Int) < 5) :=
  isOverdue_iff_not_completed_and_past samplePayment 5 0 rfl

/-- C10: a payment with no dueDate is never overdue and has zero days
overdue, for every status and every current time. -/
theorem nullDueDate_never_overdue (p : Payment) (now : Int) (h : p.dueDate = none) :
    p.isOverdue now = false ∧ p.getDaysOverdue now = 0 := by
  constructor
  · simp [Payment.isOverdue, h]
  · simp [Payment.getDaysOverdue, Payment.isOverdue, h]

/-- C10 witness: the sample payment without a due date, at time 999. -/
theorem nullDueDate_never_overdue_witness :
    ({ samplePayment with dueDate := none } : Payment).isOverdue 999 = false ∧
    ({ samplePayment with dueDate := none } : Payment).getDaysOverdue 999 = 0 :=
  nullDueDate_never_overdue { samplePayment with dueDate := none } 999 rfl

/-- C5: getDaysOverdue is 0 whenever the payment is not overdue, and
otherwise equals the ceiling of (now - dueDate) / 86400000; a pending
payment due exactly one day ago reports 1 day overdue. -/
theorem getDaysOverdue_spec (p : Payment) (now : Int) :
    (p.isOverdue now = false → p.getDaysOverdue now = 0) ∧
    (∀ d, p.dueDate = some d → p.isOverdue now = true →
      p.getDaysOverdue now = ⌈(((now - d : Int) : ℚ) / ((msPerDay : Int) : ℚ))⌉) ∧
    samplePayment.getDaysOverdue msPerDay = 1 := by
  refine ⟨?_, ?_, by decide⟩
  · intro h
    simp [Payment.getDaysOverdue, h]
  · intro d hd hov
    simp only [Payment.getDaysOverdue, hov, if_true, hd]
    exact ceilDiv_eq_ceil (now - d)

/-- C5 witness: the sample pending payment due at time 0, one day
later. -/
theorem getDaysOverdue_spec_witness :
    samplePayment.getDaysOverdue msPerDay =
      ⌈(((msPerDay - 0 : Int) : ℚ) / ((msPerDay : Int) : ℚ))⌉ :=
  (getDaysOverdue_spec samplePayment msPerDay).2.1 0 rfl (by decide)

/-- C4: canJoin is true exactly when the session is scheduled and has
free capacity; a scheduled session with maxStudents 1 and
currentStudents 1 cannot be joined. -/
theorem canJoin_iff_scheduled_and_free (s : Session) :
    (s.canJoin = true ↔
      (s.status = SessionStatus.scheduled ∧ s.currentStudents < s.maxStudents)) ∧
    Session.canJoin
      { status := SessionStatus.scheduled, maxStudents := 1, currentStudents := 1 } = false := by
  refine ⟨?_, by decide⟩
  simp [Session.canJoin, Session.isFull, not_le]

/-- C8: markPresent and markLate stamp status, check-in time,
markedBy and markedAt; markAbsent stamps status, reason, markedBy and
markedAt and leaves the check-in time unchanged. -/
theorem mark_methods_spec (a : Attendance) (mb : String) (r : Option String) (now : Int) :
    ((a.markPresent mb now).status = AttendanceStatus.present ∧
     (a.markPresent mb now).checkInTime = some now ∧
     (a.markPresent mb now).markedBy = some mb ∧
     (a.markPresent mb now).markedAt = some now) ∧
    ((a.markLate mb now).status = AttendanceStatus.late ∧
     (a.markLate mb now).checkInTime = some now ∧
     (a.markLate mb now).markedBy = some mb ∧
     (a.markLate mb now).markedAt = some now) ∧
    ((a.markAbsent mb r now).status = AttendanceStatus.absent ∧
     (a.markAbsent mb r now).reason = r ∧
     (a.markAbsent mb r now).markedBy = some mb ∧
     (a.markAbsent mb r now).markedAt = some now ∧
     (a.markAbsent mb r now).checkInTime = a.checkInTime) :=
  ⟨⟨rfl, rfl, rfl, rfl⟩, ⟨rfl, rfl, rfl, rfl⟩, ⟨rfl, rfl, rfl, rfl, rfl⟩⟩

/-- C6: folding any nonempty sequence of markAsCompleted calls over a
payment leaves the status completed, and paidAt carries the time of
the last call, so each call overwrites the stamp of the previous one. -/
theorem markAsCompleted_repeat (p : Payment)
    (calls : List (Int × Option String × Option String))
    (c : Int × Option String × Option String) (h : calls.getLast? = some c) :
    (applyCalls p calls).status = PaymentStatus.completed ∧
    (applyCalls p calls).paidAt = some c.1 := by
  induction calls generalizing p with
  | nil => simp at h
  | cons hd tl ih =>
    cases tl with
    | nil =>
      simp only [List.getLast?_singleton, Option.some.injEq] at h
      subst h
      exact markAsCompleted_status_paidAt p hd.1 hd.2.1 hd.2.2
    | cons hd2 tl2 =>
      rw [List.getLast?_cons_cons] at h
      exact ih (p.markAsCompleted hd.1 hd.2.1 hd.2.2) h

/-- C6 witness: two successive calls at times 5 and 9 leave status
completed and paidAt at 9. -/
theorem markAsCompleted_repeat_witness :
    (applyCalls samplePayment [(5, none, none), (9, some "tx9", none)]).status =
      PaymentStatus.completed ∧
    (applyCalls samplePayment [(5, none, none), (9, some "tx9", none)]).paidAt =
      some (9, some "tx9", (none : Option String)).1 :=
  markAsCompleted_repeat samplePayment [(5, none, none), (9, some "tx9", none)]
    (9, some "tx9", none) rfl

/-- C7: with the environment flag dev, beforeCreate forces the
created payment to completed status, zero amount and the dev_mode
payment method, whatever the caller supplied. -/
theorem devMode_override (p : Payment) (now : Int) (year monthIdx : Nat)
    (monthStart : Int) (daysInMonth : Nat) (table : List Int) :
    (beforeCreate "dev" now year monthIdx monthStart daysInMonth table p).status =
      PaymentStatus.completed ∧
    (beforeCreate "dev" now year monthIdx monthStart daysInMonth table p).amount = 0 ∧
    (beforeCreate "dev" now year monthIdx monthStart daysInMonth table p).paymentMethod =
      PaymentMethod.dev_mode := by
  simp only [beforeCreate]
  split <;> split <;> simp_all

/-- C2 counterexample: refunding 20 on a payment of amount 10 stores
refundAmount 20, so the refunded record violates
refundAmount <= amount. -/
theorem refund_over_amount_counterexample :
    (samplePayment.refund 20 "duplicate charge" 7).status = PaymentStatus.refunded ∧
    (samplePayment.refund 20 "duplicate charge" 7).refundAmount = some 20 ∧
    (samplePayment.refund 20 "duplicate charge" 7).amount = 10 ∧
    refundWithinAmount (samplePayment.refund 20 "duplicate charge" 7) = false := by
  decide

/-- C2 amended: refund stores the given amount, reason and time with
status refunded and leaves amount unchanged; the stored record
satisfies refundAmount <= amount exactly when the passed amount does,
since refund performs no validation. -/
theorem refund_spec (p : Payment) (a : Int) (r : String) (t : Int) :
    (p.refund a r t).status = PaymentStatus.refunded ∧
    (p.refund a r t).refundAmount = some a ∧
    (p.refund a r t).refundReason = some r ∧
    (p.refund a r t).refundedAt = some t ∧
    (p.refund a r t).amount = p.amount ∧
    (refundWithinAmount (p.refund a r t) = true ↔ a ≤ p.amount) := by
  refine ⟨rfl, rfl, rfl, rfl, rfl, ?_⟩
  simp [refundWithinAmount, Payment.refund]

/-- C3: in a 31-day month starting at time 0, a payment created on
the last day at 01:00 lies inside the calendar month, yet the count
window of the hook stops at midnight at the start of that day, so the
next generated invoice number repeats INV-202501-0001 instead of
being INV-202501-0002. -/
theorem invoice_number_repeats_on_last_day :
    genInvoiceNumber 2025 0 [] 0 31 = "INV-202501-0001" ∧
    genInvoiceNumber 2025 0 [30 * msPerDay + 3600000] 0 31 = "INV-202501-0001" ∧
    countInCalendarMonth [30 * msPerDay + 3600000] 0 31 = 1 := by
  refine ⟨by decide, by decide, by decide⟩

/-- C9 counterexample: an error named CastError has none of the five
names of the claim, yet the handler answers 400, not 500. -/
theorem castError_not_500 :
    (errorHandler (plainError "CastError" "Cast to ObjectId failed")).status = 400 ∧
    (errorHandler (plainError "CastError" "Cast to ObjectId failed")).status ≠ 500 := by
  decide

/-- C9 amended: the name mapping of the claim holds for an error
carrying no multer code, no rate-limit status and no statusCode of
its own, with CastError added as a sixth 400 name and 500 only for
the remaining names; later branches can override the name mapping:
a multer code maps to 400 unless the status is 429, a 429 status maps
to 429 unless the name is CastError, and an error matching no branch
at all is answered its own nonzero statusCode when it carries one,
else 500; every response has success false and a nonempty message. -/
theorem errorHandler_spec (err : JsError) :
    (errorHandler err).success = false ∧
    (errorHandler err).message ≠ "" ∧
    (err.code = none → err.status = none → err.statusCode = none →
      ((err.name = "SequelizeValidationError" → (errorHandler err).status = 400) ∧
       (err.name = "SequelizeUniqueConstraintError" → (errorHandler err).status = 409) ∧
       (err.name = "SequelizeForeignKeyConstraintError" → (errorHandler err).status = 400) ∧
       (err.name = "JsonWebTokenError" → (errorHandler err).status = 401) ∧
       (err.name = "TokenExpiredError" → (errorHandler err).status = 401) ∧
       (err.name = "CastError" → (errorHandler err).status = 400) ∧
       (err.name ∉ ["SequelizeValidationError", "SequelizeUniqueConstraintError",
           "SequelizeForeignKeyConstraintError", "JsonWebTokenError", "TokenExpiredError",
           "CastError"] → (errorHandler err).status = 500))) ∧
    (err.code = some "LIMIT_FILE_SIZE" → err.status ≠ some 429 →
      (errorHandler err).status = 400) ∧
    (err.code = some "LIMIT_UNEXPECTED_FILE" → err.status ≠ some 429 →
      (errorHandler err).status = 400) ∧
    (err.status = some 429 → err.name ≠ "CastError" →
      (errorHandler err).status = 429) ∧
    (err.name ∉ ["SequelizeValidationError", "SequelizeUniqueConstraintError",
        "SequelizeForeignKeyConstraintError", "JsonWebTokenError", "TokenExpiredError",
        "CastError"] → err.code ≠ some "LIMIT_FILE_SIZE" →
      err.code ≠ some "LIMIT_UNEXPECTED_FILE" → err.status ≠ some 429 →
      ∀ n, err.statusCode = some n → n ≠ 0 → (errorHandler err).status = n) := by
  refine ⟨rfl, resolveMessage_ne_empty _, ?_, ?_, ?_, ?_, ?_⟩
  · intro hcode hstatus hsc
    refine ⟨?_, ?_, ?_, ?_, ?_, ?_, ?_⟩
    all_goals intro h
    case _ => simp [errorHandler, applyBranches, resolveStatus, h, hcode, hstatus, hsc]
    case _ => simp [errorHandler, applyBranches, resolveStatus, h, hcode, hstatus, hsc]
    case _ => simp [errorHandler, applyBranches, resolveStatus, h, hcode, hstatus, hsc]
    case _ => simp [errorHandler, applyBranches, resolveStatus, h, hcode, hstatus, hsc]
    case _ => simp [errorHandler, applyBranches, resolveStatus, h, hcode, hstatus, hsc]
    case _ => simp [errorHandler, applyBranches, resolveStatus, h, hcode, hstatus, hsc]
    case _ =>
      simp only [List.mem_cons, List.not_mem_nil, or_false, not_or] at h
      obtain ⟨h1, h2, h3, h4, h5, h6⟩ := h
      simp [errorHandler, applyBranches, resolveStatus, h1, h2, h3, h4, h5, h6,
        hcode, hstatus, hsc]
  · intro hc hst
    simp only [errorHandler, applyBranches, hc, hst]
    split <;> simp [resolveStatus]
  · intro hc hst
    simp only [errorHandler, applyBranches, hc, hst]
    split <;> simp [resolveStatus]
  · intro hst hname
    simp [errorHandler, applyBranches, resolveStatus, hst, hname]
  · intro hname hc1 hc2 hst n hsc hn
    simp only [List.mem_cons, List.not_mem_nil, or_false, not_or] at hname
    obtain ⟨h1, h2, h3, h4, h5, h6⟩ := hname
    simp [errorHandler, applyBranches, resolveStatus, h1, h2, h3, h4, h5, h6,
      hc1, hc2, hst, hsc, hn]

/-- C9 witness: a malformed JWT error with no code, status or
statusCode is answered with 401 and success false, and a generic
error carrying its own statusCode 503 keeps it. -/
theorem errorHandler_spec_witness :
    (errorHandler (plainError "JsonWebTokenError" "jwt malformed")).status = 401 ∧
    (errorHandler (plainError "JsonWebTokenError" "jwt malformed")).success = false ∧
    (errorHandler statusCodeError).status = 503 := by
  have h := errorHandler_spec (plainError "JsonWebTokenError" "jwt malformed")
  have h2 := errorHandler_spec statusCodeError
  exact ⟨(h.2.2.1 rfl rfl rfl).2.2.2.1 rfl, h.1,
    h2.2.2.2.2.2.2 (by decide) (by decide) (by decide) (by decide) 503 rfl (by decide)⟩
